/-
Verification of the zpr simulation Controller orchestration core
(src/trunk/controller/headers/Controller.hpp).

The repository ships only the Controller class declaration; the method
bodies (Controller.cpp), the event classes (Events.hpp) and the
Model/View/Timer collaborators are not part of the source tree.  The
definitions below therefore embed the data model declared in the header
(run flag `run_`, the three worker-thread handles, the event queue
guarded by `eventMutex_`/`eventCondition_`, the overloaded `Process`
handlers, `scheduleEvent`, `runThreads`, `endThreads`, `run`) and model
each missing method body from the specification's words.  Concurrency is
embedded by serialisation: the mutex around the queue means enqueues and
the consumer's dequeues happen in some global total order, which we
represent as explicit sequences of operations on the controller state.
-/
import Mathlib

namespace zpr

/-- Modelled from the spec: the closed set of event variants (Events.hpp
is not under src/): Start, Stop, Restart, Close, Loop, parameterless
command tags. -/
inductive Event
  | Start
  | Stop
  | Restart
  | Close
  | Loop
deriving DecidableEq

/-- Modelled from the spec: the run-state enumeration
{Stopped, Running, Looping, Closing}, initial = Stopped. -/
inductive RunState
  | Stopped
  | Running
  | Looping
  | Closing
deriving DecidableEq

/-- A worker-thread handle is either "not started" (boost::thread
not-a-thread, also the state after a join) or "started and not yet
joined". -/
inductive ThreadStatus
  | notStarted
  | started
deriving DecidableEq

/-- The three owned worker threads. -/
inductive ThreadId
  | timer
  | model
  | view
deriving DecidableEq

/-- Observable commands the Controller issues to its collaborators
(the orchestrator side-effect list of spec section 4.2). -/
inductive Command
  | runThreads
  | pauseModelView
  | resetModelView
  | enableLoop
  | interrupt (t : ThreadId)
  | join (t : ThreadId)
deriving DecidableEq

/-- The Controller state declared in Controller.hpp: the run state
machine, the alive flag `run_`, the three thread handles
(modelThread, viewThread, timerThread) and the event queue
`eventQueue_` (a std::queue of shared_ptr<Event>, embedded as the list
of its elements, head first). -/
structure Controller where
  state : RunState
  run_ : Bool
  modelThread : ThreadStatus
  viewThread : ThreadStatus
  timerThread : ThreadStatus
  eventQueue_ : List Event
deriving DecidableEq

/-- Modelled from the spec: the freshly constructed Controller — run
state Stopped, main loop alive, no thread started, empty queue. -/
def initController : Controller :=
  { state := RunState.Stopped
    run_ := true
    modelThread := ThreadStatus.notStarted
    viewThread := ThreadStatus.notStarted
    timerThread := ThreadStatus.notStarted
    eventQueue_ := [] }

/-- Modelled from the spec: `scheduleEvent` appends the new event at the
tail of `eventQueue_` under the mutex (and notifies the consumer). -/
def scheduleEvent (c : Controller) (e : Event) : Controller :=
  { c with eventQueue_ := c.eventQueue_ ++ [e] }

/-- Modelled from the spec: `waitAndDequeue` — when the queue is
non-empty, removes and returns the head event; when empty, the consumer
blocks on the condition variable (embedded as `none`). -/
def waitAndDequeue (c : Controller) : Option (Event × Controller) :=
  match c.eventQueue_ with
  | [] => none
  | e :: rest => some (e, { c with eventQueue_ := rest })

/-- Modelled from the spec: `runThreads` starts the Model, View and
Timer execution contexts as independent threads. -/
def runThreads (c : Controller) : Controller :=
  { c with
    modelThread := ThreadStatus.started
    viewThread := ThreadStatus.started
    timerThread := ThreadStatus.started }

/-- Modelled from the spec: the command trace of `endThreads` — it
signals each of the three threads to stop (interruption request), then
blocks until each has terminated (join), Timer first, then Model, then
View. -/
def endThreadsCmds : List Command :=
  [Command.interrupt ThreadId.timer, Command.interrupt ThreadId.model,
   Command.interrupt ThreadId.view, Command.join ThreadId.timer,
   Command.join ThreadId.model, Command.join ThreadId.view]

/-- Modelled from the spec: `endThreads` interrupts and joins the three
worker threads; after it returns every handle is joined (not started). -/
def endThreads (c : Controller) : Controller × List Command :=
  ({ c with
     modelThread := ThreadStatus.notStarted
     viewThread := ThreadStatus.notStarted
     timerThread := ThreadStatus.notStarted },
   endThreadsCmds)

/-- Modelled from the spec: `Process(const EventStart&)` — from Stopped
the simulation moves to Running and the worker threads are started. -/
def ProcessStart (c : Controller) : Controller × List Command :=
  match c.state with
  | RunState.Stopped => ({ runThreads c with state := RunState.Running }, [Command.runThreads])
  | _ => (c, [])

/-- Modelled from the spec: `Process(const EventStop&)` — from Running
or Looping the simulation pauses: state becomes Stopped, Model/View are
suspended but the threads remain alive; elsewhere (including Closing,
which is terminal) a no-op. -/
def ProcessStop (c : Controller) : Controller × List Command :=
  match c.state with
  | RunState.Running => ({ c with state := RunState.Stopped }, [Command.pauseModelView])
  | RunState.Looping => ({ c with state := RunState.Stopped }, [Command.pauseModelView])
  | _ => (c, [])

/-- Modelled from the spec: `Process(const EventRestart&)` — from any
non-Closing state, reset Model/View internal state and ensure the
threads are running; the run state becomes Running. -/
def ProcessRestart (c : Controller) : Controller × List Command :=
  match c.state with
  | RunState.Closing => (c, [])
  | _ => ({ runThreads c with state := RunState.Running }, [Command.resetModelView])

/-- Modelled from the spec: `Process(const EventClose&)` — calls
`endThreads()`, sets the alive flag `run_` to false (so the main loop
exits after the current dispatch) and enters the terminal Closing
state. -/
def ProcessClose (c : Controller) : Controller × List Command :=
  (({ (endThreads c).1 with state := RunState.Closing, run_ := false }), (endThreads c).2)

/-- Modelled from the spec: `Process(const EventLoop&)` — from any state
the transition table yields Looping, enabling auto-restart-on-completion
in the Model. -/
def ProcessLoop (c : Controller) : Controller × List Command :=
  ({ c with state := RunState.Looping }, [Command.enableLoop])

/-- Single dispatch by event tag: the closed tagged-variant abstraction
of the five overloaded `Process` handlers. -/
def dispatch (c : Controller) (e : Event) : Controller × List Command :=
  match e with
  | Event.Start => ProcessStart c
  | Event.Stop => ProcessStop c
  | Event.Restart => ProcessRestart c
  | Event.Close => ProcessClose c
  | Event.Loop => ProcessLoop c

/-- Repeated `waitAndDequeue`, bounded by fuel: the sequence of events
the consumer observes. -/
def drainFuel : Nat → Controller → List Event
  | 0, _ => []
  | n + 1, c =>
    match waitAndDequeue c with
    | none => []
    | some (e, c1) => e :: drainFuel n c1

/-- The full sequence of events the consumer dequeues from the queue. -/
def drain (c : Controller) : List Event :=
  drainFuel c.eventQueue_.length c

/-- Modelled from the spec: the main consume/dispatch loop — while the
alive flag `run_` holds, `waitAndDequeue` then dispatch.  Fuel bounds
the iterations (no handler enqueues, so the pending queue only
shrinks); `none` embeds the loop blocking forever on an empty queue.
The accumulator collects the orchestrator commands issued so far. -/
def mainLoopFuel : Nat → Controller → List Command → Option (Controller × List Command)
  | 0, c, acc => if c.run_ = true then none else some (c, acc)
  | n + 1, c, acc =>
    if c.run_ = true then
      match waitAndDequeue c with
      | none => none
      | some (e, c1) => mainLoopFuel n (dispatch c1 e).1 (acc ++ (dispatch c1 e).2)
    else some (c, acc)

/-- Modelled from the spec: `run()` — sets the alive flag and enters the
main processing loop; returns (`some`) only once a Close dispatch has
cleared the flag, yielding the final controller state and the command
trace. -/
def run (c : Controller) : Option (Controller × List Command) :=
  mainLoopFuel c.eventQueue_.length { c with run_ := true } []

/-- One serialised step of the concurrent system: either some producer
thread calls `scheduleEvent`, or the Controller thread (main loop alive,
queue non-empty) dequeues the head event and dispatches it. -/
inductive Step : Controller → Controller → Prop
  | schedule (c : Controller) (e : Event) : Step c (scheduleEvent c e)
  | consume (c : Controller) (e : Event) (rest : List Event) :
      c.run_ = true → c.eventQueue_ = e :: rest →
      Step c (dispatch { c with eventQueue_ := rest } e).1

/-- Modelled from the spec: validity of the three configuration files
(map, dispatcher/camera, object/voyager data) read at construction. -/
structure ConfigData where
  mapValid : Bool
  dispatcherValid : Bool
  objectsValid : Bool
deriving DecidableEq

/-- Modelled from the spec: the construction-time configuration
errors. -/
inductive ConfigError
  | mapError
  | dispatcherError
  | objectsError
deriving DecidableEq

/-- Modelled from the spec: `parseMap` loads the map configuration file;
a malformed or missing file aborts construction. -/
def parseMap (cfg : ConfigData) : Except ConfigError Unit :=
  if cfg.mapValid = true then Except.ok () else Except.error ConfigError.mapError

/-- Modelled from the spec: `parseDispatcher` loads the camera
configuration file. -/
def parseDispatcher (cfg : ConfigData) : Except ConfigError Unit :=
  if cfg.dispatcherValid = true then Except.ok () else Except.error ConfigError.dispatcherError

/-- Modelled from the spec: `parseObjects` loads the voyager
configuration file. -/
def parseObjects (cfg : ConfigData) : Except ConfigError Unit :=
  if cfg.objectsValid = true then Except.ok () else Except.error ConfigError.objectsError

/-- Modelled from the spec: the Controller constructor — parses the
three configuration files before any thread is started; any failure
aborts construction and propagates synchronously to the caller. -/
def mkController (cfg : ConfigData) : Except ConfigError Controller :=
  match parseMap cfg with
  | Except.error err => Except.error err
  | Except.ok _ =>
    match parseDispatcher cfg with
    | Except.error err => Except.error err
    | Except.ok _ =>
      match parseObjects cfg with
      | Except.error err => Except.error err
      | Except.ok _ => Except.ok initController

deriving instance DecidableEq for Except

/-- Modelled from the spec: whether each worker thread honors the
cooperative interruption request within the bounded grace period. -/
structure ThreadBehavior where
  timerResponsive : Bool
  modelResponsive : Bool
  viewResponsive : Bool
deriving DecidableEq

/-- Whether the given worker thread honors interruption. -/
def responsive (b : ThreadBehavior) : ThreadId → Bool
  | ThreadId.timer => b.timerResponsive
  | ThreadId.model => b.modelResponsive
  | ThreadId.view => b.viewResponsive

/-- Modelled from the spec: the threads `endThreads` manages to join —
the shutdown sequence still attempts to join whatever threads remain
responsive, in the fixed Timer, Model, View order. -/
def joinedThreads (b : ThreadBehavior) : List ThreadId :=
  [ThreadId.timer, ThreadId.model, ThreadId.view].filter (fun t => responsive b t)

/-- Modelled from the spec: the threads that failed to honor
interruption within the grace period. -/
def unresponsiveThreads (b : ThreadBehavior) : List ThreadId :=
  [ThreadId.timer, ThreadId.model, ThreadId.view].filter (fun t => !responsive b t)

/-- Modelled from the spec: the shutdown outcome reported to the caller
— success, or failure naming the unresponsive threads. -/
inductive ShutdownStatus
  | success
  | failed (unresponsive : List ThreadId)
deriving DecidableEq

/-- Modelled from the spec: the overall shutdown is marked failed rather
than silently succeeding whenever some thread was unresponsive. -/
def shutdownStatus (b : ThreadBehavior) : ShutdownStatus :=
  match unresponsiveThreads b with
  | [] => ShutdownStatus.success
  | l => ShutdownStatus.failed l

/-- Modelled from the spec: `run()` with thread-lifecycle error
collection — runtime thread errors are gathered by the orchestrator and
reported through the same channel `run()` uses to return control (its
return value), never thrown across thread boundaries. -/
def runChecked (b : ThreadBehavior) (c : Controller) : Option (Controller × ShutdownStatus) :=
  match run c with
  | none => none
  | some (c2, _) => some (c2, shutdownStatus b)

theorem drainFuel_take (n : Nat) (c : Controller) :
    drainFuel n c = c.eventQueue_.take n := by
  induction n generalizing c with
  | zero => simp [drainFuel]
  | succ n ih =>
    rcases hq : c.eventQueue_ with _ | ⟨e, rest⟩
    · simp [drainFuel, waitAndDequeue, hq]
    · simp [drainFuel, waitAndDequeue, hq, ih]

theorem drain_eq (c : Controller) : drain c = c.eventQueue_ := by
  simp [drain, drainFuel_take]

theorem foldl_scheduleEvent_queue (es : List Event) (c : Controller) :
    (es.foldl scheduleEvent c).eventQueue_ = c.eventQueue_ ++ es := by
  induction es generalizing c with
  | nil => simp
  | cons e es ih => simp [List.foldl_cons, ih, scheduleEvent]

theorem step_closing (c c' : Controller) (hs : Step c c')
    (hstate : c.state = RunState.Closing) (hrun : c.run_ = false) :
    c'.state = RunState.Closing ∧ c'.run_ = false := by
  cases hs with
  | schedule e => exact ⟨hstate, hrun⟩
  | consume e rest hr hq =>
    rw [hr] at hrun
    exact Bool.noConfusion hrun

theorem dispatch_closing_dead (c : Controller) (e : Event)
    (h : (dispatch c e).1.state = RunState.Closing) :
    (dispatch c e).1.run_ = false ∨ c.state = RunState.Closing := by
  rcases c with ⟨s, r, mt, vt, tt, q⟩
  cases e <;> cases s <;>
    simp_all [dispatch, ProcessStart, ProcessStop, ProcessRestart, ProcessClose,
      ProcessLoop, runThreads, endThreads]

/-- Whenever the run state is the terminal Closing, the alive flag is
already down. -/
def closedDead (c : Controller) : Prop :=
  c.state = RunState.Closing → c.run_ = false

theorem step_closedDead (c c' : Controller) (hs : Step c c') (h : closedDead c) :
    closedDead c' := by
  cases hs with
  | schedule e => exact h
  | consume e rest hr hq =>
    intro hcl
    rcases dispatch_closing_dead _ _ hcl with h1 | h1
    · exact h1
    · have h2 := h h1
      rw [hr] at h2
      exact Bool.noConfusion h2

theorem reachable_closedDead (c : Controller)
    (h : Relation.ReflTransGen Step initController c) : closedDead c := by
  induction h with
  | refl => intro hcl; exact absurd hcl (by decide)
  | tail _ hs ih => exact step_closedDead _ _ hs ih

/-- C1: The Controller's run-state machine starts in Stopped and, for each
dequeued event, transitions as specified: Start in Stopped yields Running and
starts the worker threads; Stop in Running or Looping yields Stopped with the
worker threads left alive; Close in any non-Closing state yields Closing and
clears the alive flag so that `run()` returns. -/
theorem controller_c1 (c : Controller) :
    initController.state = RunState.Stopped ∧
    (c.state = RunState.Stopped →
      (dispatch c Event.Start).1.state = RunState.Running ∧
      (dispatch c Event.Start).2 = [Command.runThreads] ∧
      (dispatch c Event.Start).1.modelThread = ThreadStatus.started ∧
      (dispatch c Event.Start).1.viewThread = ThreadStatus.started ∧
      (dispatch c Event.Start).1.timerThread = ThreadStatus.started) ∧
    ((c.state = RunState.Running ∨ c.state = RunState.Looping) →
      (dispatch c Event.Stop).1.state = RunState.Stopped ∧
      (dispatch c Event.Stop).1.modelThread = c.modelThread ∧
      (dispatch c Event.Stop).1.viewThread = c.viewThread ∧
      (dispatch c Event.Stop).1.timerThread = c.timerThread) ∧
    (c.state ≠ RunState.Closing →
      (dispatch c Event.Close).1.state = RunState.Closing ∧
      (dispatch c Event.Close).1.run_ = false) := by
  refine ⟨rfl, ?_, ?_, fun _ => ⟨rfl, rfl⟩⟩
  · intro h
    simp [dispatch, ProcessStart, h, runThreads]
  · rintro (h | h) <;> simp [dispatch, ProcessStop, h]

/-- Witness for C1 at concrete controllers. -/
theorem controller_c1_witness :
    (dispatch initController Event.Start).1.state = RunState.Running ∧
    (dispatch { initController with state := RunState.Running } Event.Stop).1.state = RunState.Stopped ∧
    (dispatch { initController with state := RunState.Running } Event.Close).1.state = RunState.Closing :=
  ⟨((controller_c1 initController).2.1 rfl).1,
   ((controller_c1 { initController with state := RunState.Running }).2.2.1 (Or.inl rfl)).1,
   ((controller_c1 { initController with state := RunState.Running }).2.2.2 (by decide)).1⟩

/-- C5: Restart is idempotent from Running — dispatching Restart twice in
succession starting from Running leaves the Controller in the same
observable state (Running, with Model and View reset) as a single
Restart. -/
theorem controller_c5 (c : Controller) (h : c.state = RunState.Running) :
    dispatch (dispatch c Event.Restart).1 Event.Restart = dispatch c Event.Restart ∧
    (dispatch c Event.Restart).1.state = RunState.Running ∧
    (dispatch c Event.Restart).2 = [Command.resetModelView] := by
  rcases c with ⟨s, r, mt, vt, tt, q⟩
  obtain rfl : s = RunState.Running := h
  exact ⟨rfl, rfl, rfl⟩

/-- Witness for C5 at a concrete Running controller. -/
theorem controller_c5_witness :
    dispatch (dispatch { initController with state := RunState.Running } Event.Restart).1 Event.Restart =
      dispatch { initController with state := RunState.Running } Event.Restart ∧
    (dispatch { initController with state := RunState.Running } Event.Restart).1.state = RunState.Running ∧
    (dispatch { initController with state := RunState.Running } Event.Restart).2 = [Command.resetModelView] :=
  controller_c5 { initController with state := RunState.Running } rfl

/-- C6: `endThreads()` first signals all three worker threads to stop
(interruption request) and then joins each of them, interrupts and joins
each in the fixed order Timer first, then Model, then View; afterwards
every handle is joined. -/
theorem controller_c6 (c : Controller) :
    (endThreads c).2 = [Command.interrupt ThreadId.timer, Command.interrupt ThreadId.model,
      Command.interrupt ThreadId.view, Command.join ThreadId.timer,
      Command.join ThreadId.model, Command.join ThreadId.view] ∧
    (endThreads c).1.timerThread = ThreadStatus.notStarted ∧
    (endThreads c).1.modelThread = ThreadStatus.notStarted ∧
    (endThreads c).1.viewThread = ThreadStatus.notStarted :=
  ⟨rfl, rfl, rfl, rfl⟩

/-- C9: Event dispatch is deterministic — events carry no payload, so the
resulting run state and the command sequence depend only on the event tag
and the current run state. -/
theorem controller_c9 (c1 c2 : Controller) (e : Event) (h : c1.state = c2.state) :
    (dispatch c1 e).1.state = (dispatch c2 e).1.state ∧
    (dispatch c1 e).2 = (dispatch c2 e).2 := by
  rcases c1 with ⟨s1, r1, mt1, vt1, tt1, q1⟩
  rcases c2 with ⟨s2, r2, mt2, vt2, tt2, q2⟩
  obtain rfl : s1 = s2 := h
  cases e <;> cases s1 <;>
    simp [dispatch, ProcessStart, ProcessStop, ProcessRestart, ProcessClose,
      ProcessLoop, runThreads, endThreads]

/-- Witness for C9 at two distinct controllers sharing a run state. -/
theorem controller_c9_witness :
    (dispatch initController Event.Start).1.state =
      (dispatch { initController with eventQueue_ := [Event.Loop] } Event.Start).1.state ∧
    (dispatch initController Event.Start).2 =
      (dispatch { initController with eventQueue_ := [Event.Loop] } Event.Start).2 :=
  controller_c9 initController { initController with eventQueue_ := [Event.Loop] } Event.Start rfl

/-- C10: `scheduleEvent` only appends — it places exactly one element at the
tail of the event queue and leaves the run state, the alive flag `run_`, the
three thread handles and the previously queued events (contents and order)
unchanged. -/
theorem controller_c10 (c : Controller) (e : Event) :
    (scheduleEvent c e).eventQueue_ = c.eventQueue_ ++ [e] ∧
    (scheduleEvent c e).state = c.state ∧
    (scheduleEvent c e).run_ = c.run_ ∧
    (scheduleEvent c e).modelThread = c.modelThread ∧
    (scheduleEvent c e).viewThread = c.viewThread ∧
    (scheduleEvent c e).timerThread = c.timerThread :=
  ⟨rfl, rfl, rfl, rfl, rfl, rfl⟩

/-- C2: Closing is terminal — in every serialised execution of the system,
once a reachable configuration has entered the Closing run state, no
subsequent step (producer `scheduleEvent` or a dequeue-and-dispatch of any
event, Stop and Loop included) ever changes the state to anything other
than Closing. -/
theorem controller_c2 (c c' : Controller)
    (hreach : Relation.ReflTransGen Step initController c)
    (hclose : c.state = RunState.Closing)
    (hsteps : Relation.ReflTransGen Step c c') :
    c'.state = RunState.Closing := by
  have hdead : c.run_ = false := reachable_closedDead c hreach hclose
  have hboth : c'.state = RunState.Closing ∧ c'.run_ = false := by
    induction hsteps with
    | refl => exact ⟨hclose, hdead⟩
    | tail _ hs ih => exact step_closing _ _ hs ih.1 ih.2
  exact hboth.1

/-- Witness for C2: schedule a Close, consume it, then take one more step. -/
theorem controller_c2_witness :
    (scheduleEvent (dispatch { scheduleEvent initController Event.Close with
        eventQueue_ := ([] : List Event) } Event.Close).1 Event.Start).state = RunState.Closing :=
  controller_c2 _ _
    (Relation.ReflTransGen.tail
      (Relation.ReflTransGen.single (Step.schedule initController Event.Close))
      (Step.consume (scheduleEvent initController Event.Close) Event.Close [] rfl rfl))
    rfl
    (Relation.ReflTransGen.single (Step.schedule _ Event.Start))

/-- C3: for every finite sequence of events passed to `scheduleEvent`, the
consumer's `waitAndDequeue` operations return exactly those events — none
lost, none duplicated — in FIFO order (the serialised enqueue order under
the queue mutex). -/
theorem controller_c3 (c : Controller) (es : List Event) (h : c.eventQueue_ = []) :
    drain (es.foldl scheduleEvent c) = es := by
  simp [drain_eq, foldl_scheduleEvent_queue, h]

/-- Witness for C3 on a concrete event sequence. -/
theorem controller_c3_witness :
    drain ([Event.Start, Event.Stop, Event.Close].foldl scheduleEvent initController) =
      [Event.Start, Event.Stop, Event.Close] :=
  controller_c3 initController [Event.Start, Event.Stop, Event.Close] rfl

theorem waitAndDequeue_run (c : Controller) (e : Event) (c1 : Controller)
    (h : waitAndDequeue c = some (e, c1)) : c1.run_ = c.run_ := by
  rcases hq : c.eventQueue_ with _ | ⟨e0, rest⟩
  · simp [waitAndDequeue, hq] at h
  · simp [waitAndDequeue, hq] at h
    obtain ⟨h1, h2⟩ := h
    rw [← h2]

theorem dispatch_flip (c : Controller) (e : Event) (hr : c.run_ = true)
    (hf : (dispatch c e).1.run_ = false) :
    (dispatch c e).1.state = RunState.Closing ∧
    (dispatch c e).1.modelThread = ThreadStatus.notStarted ∧
    (dispatch c e).1.viewThread = ThreadStatus.notStarted ∧
    (dispatch c e).1.timerThread = ThreadStatus.notStarted ∧
    (dispatch c e).2 = endThreadsCmds := by
  rcases c with ⟨s, r, mt, vt, tt, q⟩
  obtain rfl : r = true := hr
  cases e <;> cases s <;>
    simp_all [dispatch, ProcessStart, ProcessStop, ProcessRestart, ProcessClose,
      ProcessLoop, runThreads, endThreads]

theorem mainLoopFuel_stop (n : Nat) (c : Controller) (acc : List Command)
    (h : c.run_ = false) : mainLoopFuel n c acc = some (c, acc) := by
  cases n <;> simp [mainLoopFuel, h]

theorem mainLoopFuel_succ_none (n : Nat) (c : Controller) (acc : List Command)
    (hr : c.run_ = true) (hw : waitAndDequeue c = none) :
    mainLoopFuel (n + 1) c acc = none := by
  simp [mainLoopFuel, hr, hw]

theorem mainLoopFuel_succ (n : Nat) (c : Controller) (acc : List Command)
    (e : Event) (c1 : Controller) (hr : c.run_ = true)
    (hw : waitAndDequeue c = some (e, c1)) :
    mainLoopFuel (n + 1) c acc = mainLoopFuel n (dispatch c1 e).1 (acc ++ (dispatch c1 e).2) := by
  simp [mainLoopFuel, hr, hw]

theorem mainLoopFuel_close (n : Nat) (c : Controller) (acc : List Command)
    (c' : Controller) (cmds : List Command)
    (h : mainLoopFuel n c acc = some (c', cmds)) (hr : c.run_ = true) :
    c'.state = RunState.Closing ∧ c'.run_ = false ∧
    c'.modelThread = ThreadStatus.notStarted ∧
    c'.viewThread = ThreadStatus.notStarted ∧
    c'.timerThread = ThreadStatus.notStarted ∧
    Command.join ThreadId.timer ∈ cmds ∧
    Command.join ThreadId.model ∈ cmds ∧
    Command.join ThreadId.view ∈ cmds := by
  induction n generalizing c acc with
  | zero => simp [mainLoopFuel, hr] at h
  | succ n ih =>
    rcases hw : waitAndDequeue c with _ | ⟨e, c1⟩
    · rw [mainLoopFuel_succ_none n c acc hr hw] at h
      cases h
    · rw [mainLoopFuel_succ n c acc e c1 hr hw] at h
      by_cases hd : (dispatch c1 e).1.run_ = true
      · exact ih _ _ h hd
      · have hdf : (dispatch c1 e).1.run_ = false := by
          revert hd
          cases (dispatch c1 e).1.run_ <;> simp
        rw [mainLoopFuel_stop n _ _ hdf] at h
        simp only [Option.some.injEq, Prod.mk.injEq] at h
        obtain ⟨h1, h2⟩ := h
        have hc1 : c1.run_ = true := (waitAndDequeue_run c e c1 hw).trans hr
        obtain ⟨ha, hm, hv, ht, he⟩ := dispatch_flip c1 e hc1 hdf
        subst h1
        subst h2
        refine ⟨ha, hdf, hm, hv, ht, ?_, ?_, ?_⟩ <;>
          rw [he] <;> simp [endThreadsCmds]

/-- C4: `run()` returns only after a Close event has been fully dispatched
and all three owned worker threads (Model, View, Timer) have been joined —
at the moment it returns, the run state is the terminal Closing, the alive
flag is down, every thread handle is joined (not started), and the command
trace contains the join of each worker thread. -/
theorem controller_c4 (c c' : Controller) (cmds : List Command)
    (h : run c = some (c', cmds)) :
    c'.state = RunState.Closing ∧ c'.run_ = false ∧
    c'.modelThread = ThreadStatus.notStarted ∧
    c'.viewThread = ThreadStatus.notStarted ∧
    c'.timerThread = ThreadStatus.notStarted ∧
    Command.join ThreadId.timer ∈ cmds ∧
    Command.join ThreadId.model ∈ cmds ∧
    Command.join ThreadId.view ∈ cmds := by
  unfold run at h
  exact mainLoopFuel_close _ _ _ _ _ h rfl

/-- Witness for C4: running with a single pending Close event. -/
theorem controller_c4_witness :
    ({ state := RunState.Closing, run_ := false, modelThread := ThreadStatus.notStarted,
       viewThread := ThreadStatus.notStarted, timerThread := ThreadStatus.notStarted,
       eventQueue_ := [] } : Controller).state = RunState.Closing ∧
    ({ state := RunState.Closing, run_ := false, modelThread := ThreadStatus.notStarted,
       viewThread := ThreadStatus.notStarted, timerThread := ThreadStatus.notStarted,
       eventQueue_ := [] } : Controller).run_ = false ∧
    ({ state := RunState.Closing, run_ := false, modelThread := ThreadStatus.notStarted,
       viewThread := ThreadStatus.notStarted, timerThread := ThreadStatus.notStarted,
       eventQueue_ := [] } : Controller).modelThread = ThreadStatus.notStarted ∧
    ({ state := RunState.Closing, run_ := false, modelThread := ThreadStatus.notStarted,
       viewThread := ThreadStatus.notStarted, timerThread := ThreadStatus.notStarted,
       eventQueue_ := [] } : Controller).viewThread = ThreadStatus.notStarted ∧
    ({ state := RunState.Closing, run_ := false, modelThread := ThreadStatus.notStarted,
       viewThread := ThreadStatus.notStarted, timerThread := ThreadStatus.notStarted,
       eventQueue_ := [] } : Controller).timerThread = ThreadStatus.notStarted ∧
    Command.join ThreadId.timer ∈ endThreadsCmds ∧
    Command.join ThreadId.model ∈ endThreadsCmds ∧
    Command.join ThreadId.view ∈ endThreadsCmds :=
  controller_c4 { initController with eventQueue_ := [Event.Close] }
    { state := RunState.Closing, run_ := false, modelThread := ThreadStatus.notStarted,
      viewThread := ThreadStatus.notStarted, timerThread := ThreadStatus.notStarted,
      eventQueue_ := [] }
    endThreadsCmds rfl

/-- C7: configuration errors (malformed or missing map, dispatcher or object
files) are detected during construction, before any worker thread is
started: the constructor either yields the initial controller with no
thread started, or aborts with the corresponding error propagated
synchronously to the caller; it succeeds exactly when all three
configuration files are valid. -/
theorem controller_c7 (cfg : ConfigData) :
    (mkController cfg = Except.ok initController ∨
     mkController cfg = Except.error ConfigError.mapError ∨
     mkController cfg = Except.error ConfigError.dispatcherError ∨
     mkController cfg = Except.error ConfigError.objectsError) ∧
    (mkController cfg = Except.ok initController ↔
      (cfg.mapValid = true ∧ cfg.dispatcherValid = true ∧ cfg.objectsValid = true)) ∧
    initController.modelThread = ThreadStatus.notStarted ∧
    initController.viewThread = ThreadStatus.notStarted ∧
    initController.timerThread = ThreadStatus.notStarted ∧
    initController.state = RunState.Stopped := by
  rcases cfg with ⟨m, d, o⟩
  cases m <;> cases d <;> cases o <;> decide

/-- C8: runtime thread-lifecycle errors (a worker thread failing to honor
interruption within the grace period) are collected by the orchestration
layer and reported through the same channel by which `run()` returns
control: shutdown is marked successful exactly when every thread was
responsive, a failed shutdown names the unresponsive threads rather than
being masked as success, and every responsive thread is still joined. -/
theorem controller_c8 (b : ThreadBehavior) (c c' : Controller) (st : ShutdownStatus)
    (h : runChecked b c = some (c', st)) :
    (st = ShutdownStatus.success ↔
      (b.timerResponsive = true ∧ b.modelResponsive = true ∧ b.viewResponsive = true)) ∧
    (unresponsiveThreads b ≠ [] → st = ShutdownStatus.failed (unresponsiveThreads b)) ∧
    (ThreadId.timer ∈ joinedThreads b ↔ b.timerResponsive = true) ∧
    (ThreadId.model ∈ joinedThreads b ↔ b.modelResponsive = true) ∧
    (ThreadId.view ∈ joinedThreads b ↔ b.viewResponsive = true) := by
  have hst : st = shutdownStatus b := by
    rcases hr : run c with _ | ⟨c2, cmds⟩ <;> simp [runChecked, hr] at h
    exact h.2.symm
  subst hst
  rcases b with ⟨bt, bm, bv⟩
  cases bt <;> cases bm <;> cases bv <;> decide

/-- Witness for C8: an unresponsive Timer thread is reported as a failed
shutdown through the return of `run`. -/
theorem controller_c8_witness :
    (ShutdownStatus.failed [ThreadId.timer] = ShutdownStatus.success ↔
      (({ timerResponsive := false, modelResponsive := true, viewResponsive := true }
          : ThreadBehavior).timerResponsive = true ∧
       ({ timerResponsive := false, modelResponsive := true, viewResponsive := true }
          : ThreadBehavior).modelResponsive = true ∧
       ({ timerResponsive := false, modelResponsive := true, viewResponsive := true }
          : ThreadBehavior).viewResponsive = true)) ∧
    (unresponsiveThreads { timerResponsive := false, modelResponsive := true, viewResponsive := true } ≠ [] →
      ShutdownStatus.failed [ThreadId.timer] =
        ShutdownStatus.failed (unresponsiveThreads
          { timerResponsive := false, modelResponsive := true, viewResponsive := true })) ∧
    (ThreadId.timer ∈ joinedThreads { timerResponsive := false, modelResponsive := true, viewResponsive := true } ↔
      ({ timerResponsive := false, modelResponsive := true, viewResponsive := true }
        : ThreadBehavior).timerResponsive = true) ∧
    (ThreadId.model ∈ joinedThreads { timerResponsive := false, modelResponsive := true, viewResponsive := true } ↔
      ({ timerResponsive := false, modelResponsive := true, viewResponsive := true }
        : ThreadBehavior).modelResponsive = true) ∧
    (ThreadId.view ∈ joinedThreads { timerResponsive := false, modelResponsive := true, viewResponsive := true } ↔
      ({ timerResponsive := false, modelResponsive := true, viewResponsive := true }
        : ThreadBehavior).viewResponsive = true) :=
  controller_c8 { timerResponsive := false, modelResponsive := true, viewResponsive := true }
    { initController with eventQueue_ := [Event.Close] }
    { state := RunState.Closing, run_ := false, modelThread := ThreadStatus.notStarted,
      viewThread := ThreadStatus.notStarted, timerThread := ThreadStatus.notStarted,
      eventQueue_ := [] }
    (ShutdownStatus.failed [ThreadId.timer]) rfl

end zpr
